import Mathlib

/-!
Shallow embedding of the AccelByte healthcheck-go-sdk v2 core
(package `healthcheck`): the dependency health registry, its check
executor, background scheduler flag, external update gateway
(`UpdateHealth`) and the aggregator (`getResponse`).

Modelling conventions:
* Go `time.Time` is a `Nat` (nanoseconds since epoch); `IsZero` is `= 0`.
  `*time.Time` is `Option Nat`.  The current time is passed explicitly.
* `time.Duration` is an `Int` of nanoseconds (durations can be negative).
* A Go `error` outcome of a check callable is `Option String`
  (`none` = success, `some msg` = failure).  A `CheckFunc` field that may
  be `nil` is `Option (Option String)`: `none` when the callable is
  absent, `some r` when present, `r` being the outcome the callable
  returns when invoked in the state under consideration.
* The Go `map[string]healthDependency` is a `List HealthDependency`
  looked up by the `name` field; map assignment replaces the entry with
  that key or appends a fresh one.
* Methods that mutate the receiver return the updated state; a method
  that also returns an error returns the error alongside the state.
-/

namespace Healthcheck

/-- Go `lastError` struct: last error information of a dependency. -/
structure LastErrorInfo where
  timestamp : Option Nat
  message : String
  deriving Repr, DecidableEq

/-- Go `CheckError`: error information submitted via the UpdateHealth API. -/
structure CheckError where
  timestamp : Nat
  message : String
  deriving Repr, DecidableEq

/-- Go `healthDependency`: the per-dependency record held in the registry. -/
structure HealthDependency where
  name : String
  url : String
  healthy : Bool
  hardDependency : Bool
  lastKnownGoodCall : Option Nat
  lastCall : Option Nat
  lastError : Option LastErrorInfo
  checkFunc : Option (Option String)
  deriving Repr, DecidableEq

/-- Method `healthDependency.check`: if the callable is absent, return
unchanged; otherwise set `LastCall := now`, invoke the callable, and on
failure overwrite `LastError` (message and timestamp) and set
`Healthy := false`, on success set `Healthy := true` and
`LastKnownGoodCall := now`. -/
def HealthDependency.check (h : HealthDependency) (now : Nat) :
    HealthDependency :=
  match h.checkFunc with
  | none => h
  | some outcome =>
    let h1 := { h with lastCall := some now }
    match outcome with
    | some errMsg =>
      { h1 with
        lastError := some { message := errMsg, timestamp := h1.lastCall }
        healthy := false }
    | none =>
      { h1 with healthy := true, lastKnownGoodCall := some now }

/-- Go `response`: the report returned to a health-probe caller (the
`others` passthrough collection is kept as in the source). -/
structure HealthOtherComponent where
  name : String
  healthy : Bool
  deriving Repr, DecidableEq

structure ResponseBody where
  name : String
  healthy : Bool
  dependencies : List HealthDependency
  others : List HealthOtherComponent
  deriving Repr, DecidableEq

/-- Go `Config` passed to `New`. -/
structure Config where
  serviceName : String
  basePath : String
  backgroundCheckInterval : Int
  deriving Repr, DecidableEq

/-- Go `healthCheck`: the handler state (registry plus scheduler flag). -/
structure HealthCheck where
  serviceName : String
  basePath : String
  dependencies : List HealthDependency
  bgCheckRunning : Bool
  bgCheckInterval : Int
  deriving Repr, DecidableEq

/-- Constant `DefaultBackgroundCheckInterval = 60 * time.Second`, in nanoseconds. -/
def DefaultBackgroundCheckInterval : Int := 60 * 1000000000

/-- Registry lookup, `h.dependencies[name]` on the Go map. -/
def lookupDep (deps : List HealthDependency) (name : String) :
    Option HealthDependency :=
  deps.find? (fun d => d.name == name)

/-- Registry write, `h.dependencies[name] = d` on the Go map: replace
the entry keyed by `name`, or append a fresh one. -/
def setDep (deps : List HealthDependency) (name : String)
    (d : HealthDependency) : List HealthDependency :=
  if deps.any (fun x => x.name == name) then
    deps.map (fun x => if x.name == name then d else x)
  else
    deps ++ [d]

/-- Constructor `New(config)`: substitute the default interval when the configured
one is `<= 0`, start with an empty registry and a stopped scheduler. -/
def New (config : Config) : HealthCheck :=
  let interval :=
    if config.backgroundCheckInterval ≤ 0 then
      DefaultBackgroundCheckInterval
    else
      config.backgroundCheckInterval
  { serviceName := config.serviceName
    basePath := config.basePath
    dependencies := []
    bgCheckRunning := false
    bgCheckInterval := interval }

/-- Method `AddHealthCheck`: register a soft dependency; all fields other than
name, url and the callable take their Go zero values. -/
def AddHealthCheck (h : HealthCheck) (name url : String)
    (check : Option (Option String)) : HealthCheck :=
  { h with
    dependencies := setDep h.dependencies name
      { name := name, url := url, healthy := false, hardDependency := false
        lastKnownGoodCall := none, lastCall := none, lastError := none
        checkFunc := check } }

/-- Method `AddHardHealthCheck`: register a hard dependency. -/
def AddHardHealthCheck (h : HealthCheck) (name url : String)
    (check : Option (Option String)) : HealthCheck :=
  { h with
    dependencies := setDep h.dependencies name
      { name := name, url := url, healthy := false, hardDependency := true
        lastKnownGoodCall := none, lastCall := none, lastError := none
        checkFunc := check } }

/-- Method `UpdateHealth(name, isHealthy, checkError)`: error (and no state
change) when `name` is not registered; otherwise set `Healthy`,
`LastCall := now`, copy it to `LastKnownGoodCall` when healthy, and when
`checkError` is non-nil overwrite `LastError` with its message and, when
the supplied timestamp is non-zero, that timestamp. -/
def UpdateHealth (h : HealthCheck) (name : String) (isHealthy : Bool)
    (checkError : Option CheckError) (now : Nat) :
    Option String × HealthCheck :=
  match lookupDep h.dependencies name with
  | none => (some "dependency name does not exist", h)
  | some dependency =>
    let d1 := { dependency with healthy := isHealthy, lastCall := some now }
    let d2 :=
      if isHealthy then { d1 with lastKnownGoodCall := d1.lastCall } else d1
    let d3 :=
      match checkError with
      | none => d2
      | some ce =>
        { d2 with
          lastError := some
            { message := ce.message
              timestamp := if ce.timestamp ≠ 0 then some ce.timestamp
                           else none } }
    (none, { h with dependencies := setDep h.dependencies name d3 })

/-- Method `runChecks`: one full Check Executor round — every record runs its
own `check` and is written back under its name. -/
def runChecks (h : HealthCheck) (now : Nat) : HealthCheck :=
  { h with dependencies := h.dependencies.map (fun d => d.check now) }

/-- Method `StartBackgroundCheck`: no-op when already running; otherwise mark
running and run one full round synchronously before returning (the
periodic ticker then repeats rounds until cancellation). -/
def StartBackgroundCheck (h : HealthCheck) (now : Nat) : HealthCheck :=
  if h.bgCheckRunning then h
  else runChecks { h with bgCheckRunning := true } now

/-- The aggregation loop of `getResponse`: start from
`(http.StatusOK, healthy := true)` and break at the first record that is
unhealthy and hard, flipping to `(http.StatusServiceUnavailable, false)`. -/
def aggregateStatus : List HealthDependency → Nat × Bool
  | [] => (200, true)
  | d :: rest =>
    if !d.healthy && d.hardDependency then (503, false)
    else aggregateStatus rest

/-- Method `getResponse`: when the background worker is not running, first run
one synchronous round; snapshot the registry into the report; aggregate
the verdict and status code.  Returns the status, the report, and the
(possibly refreshed) handler state. -/
def getResponse (h : HealthCheck) (now : Nat) :
    Nat × ResponseBody × HealthCheck :=
  let h1 := if !h.bgCheckRunning then runChecks h now else h
  let deps := h1.dependencies
  let (status, overall) := aggregateStatus deps
  (status,
   { name := h.serviceName, healthy := overall, dependencies := deps
     others := [] },
   h1)


/-! Concrete demonstration states, used by the witness theorems. -/

def demoDepOk : HealthDependency :=
  { name := "redis", url := "redis:6379", healthy := false
    hardDependency := true, lastKnownGoodCall := none, lastCall := none
    lastError := none, checkFunc := some none }

def demoDepFail : HealthDependency :=
  { name := "mongo", url := "mongo:27017", healthy := true
    hardDependency := false, lastKnownGoodCall := some 1, lastCall := some 1
    lastError := none, checkFunc := some (some "connection refused") }

def demoDepExternal : HealthDependency :=
  { name := "emailProvider", url := "https://email-provider", healthy := true
    hardDependency := false, lastKnownGoodCall := some 2, lastCall := some 2
    lastError := none, checkFunc := none }

def demoStopped : HealthCheck :=
  { serviceName := "svc", basePath := "/b"
    dependencies := [demoDepOk, demoDepFail, demoDepExternal]
    bgCheckRunning := false, bgCheckInterval := 1 }

def demoRunning : HealthCheck :=
  { demoStopped with bgCheckRunning := true }

/-- Stale-error dependency: a recorded lastError, callable succeeding. -/
def staleDep : HealthDependency :=
  { name := "emailProvider", url := "https://email-provider"
    healthy := false, hardDependency := false
    lastKnownGoodCall := none, lastCall := some 1
    lastError := some { timestamp := some 1, message := "smtp timeout" }
    checkFunc := some none }

def staleState : HealthCheck :=
  { serviceName := "svc", basePath := "/b", dependencies := [staleDep]
    bgCheckRunning := true, bgCheckInterval := 1 }

/-- External-update dependency with no recorded lastError. -/
def noErrDep : HealthDependency :=
  { name := "queue", url := "amqp://q", healthy := true
    hardDependency := false, lastKnownGoodCall := some 1, lastCall := some 1
    lastError := none, checkFunc := none }

def noErrState : HealthCheck :=
  { serviceName := "svc", basePath := "/b", dependencies := [noErrDep]
    bgCheckRunning := true, bgCheckInterval := 1 }

/-- The lastError written by `UpdateHealth`: the prior value when no
checkError is supplied, otherwise the supplied message with its
timestamp when that timestamp is non-zero. -/
def updErr (old : Option LastErrorInfo) :
    Option CheckError → Option LastErrorInfo
  | none => old
  | some ce =>
    some { message := ce.message
           timestamp := if ce.timestamp ≠ 0 then some ce.timestamp
                        else none }


/-! Helper lemmas about the registry map model. -/

theorem lookupDep_name (deps : List HealthDependency) (name : String)
    (d : HealthDependency) (h : lookupDep deps name = some d) :
    (d.name == name) = true := by
  unfold lookupDep at h
  have h2 := List.find?_some h
  exact h2

theorem find?_map_replace (deps : List HealthDependency) (name : String)
    (d : HealthDependency) (hname : (d.name == name) = true) :
    ((deps.map (fun x => if x.name == name then d else x)).find?
        (fun x => x.name == name)) =
      (if deps.any (fun x => x.name == name) then some d else none) := by
  induction deps with
  | nil => simp
  | cons x rest ih =>
    by_cases hx : (x.name == name) = true
    · simp [List.find?, hx, hname]
    · simp only [List.map_cons, List.find?, List.any_cons]
      rw [if_neg hx]
      simp only [hx, Bool.false_or]
      exact ih

theorem find?_append_new (deps : List HealthDependency) (name : String)
    (d : HealthDependency) (hname : (d.name == name) = true)
    (hnone : deps.any (fun x => x.name == name) = false) :
    ((deps ++ [d]).find? (fun x => x.name == name)) = some d := by
  induction deps with
  | nil => simp [List.find?, hname]
  | cons x rest ih =>
    simp only [List.any_cons, Bool.or_eq_false_iff] at hnone
    simp only [List.cons_append, List.find?, hnone.1]
    exact ih hnone.2

theorem lookupDep_setDep (deps : List HealthDependency) (name : String)
    (d : HealthDependency) (hname : (d.name == name) = true) :
    lookupDep (setDep deps name d) name = some d := by
  unfold lookupDep setDep
  by_cases hany : deps.any (fun x => x.name == name) = true
  · rw [if_pos hany, find?_map_replace deps name d hname, if_pos hany]
  · rw [if_neg hany]
    exact find?_append_new deps name d hname (Bool.eq_false_iff.mpr hany)

theorem mem_setDep (deps : List HealthDependency) (name : String)
    (d : HealthDependency) : d ∈ setDep deps name d := by
  unfold setDep
  by_cases hany : deps.any (fun x => x.name == name) = true
  · rw [if_pos hany]
    rw [List.any_eq_true] at hany
    obtain ⟨x, hx, hxn⟩ := hany
    have hmem := List.mem_map_of_mem (fun y => if y.name == name then d else y) hx
    simpa [hxn] using hmem
  · rw [if_neg hany]
    simp

theorem aggregateStatus_eq (deps : List HealthDependency) :
    aggregateStatus deps =
      ((if deps.any (fun d => !d.healthy && d.hardDependency) then 503
        else 200),
       !deps.any (fun d => !d.healthy && d.hardDependency)) := by
  induction deps with
  | nil => simp [aggregateStatus]
  | cons d rest ih =>
    by_cases hd : (!d.healthy && d.hardDependency) = true
    · simp [aggregateStatus, hd]
    · simp only [aggregateStatus, List.any_cons]
      rw [if_neg hd, ih]
      simp [Bool.eq_false_iff.mpr hd]

theorem no_bad_hard_iff (l : List HealthDependency) :
    ((l.any fun d => !d.healthy && d.hardDependency) = false ↔
      ∀ d ∈ l, ¬(d.hardDependency = true ∧ d.healthy = false)) := by
  rw [List.any_eq_false]
  constructor
  · intro hno d hd hcontra
    have hx := hno d hd
    simp [hcontra.1, hcontra.2] at hx
  · intro hall d hd hbad
    simp only [Bool.and_eq_true, Bool.not_eq_true'] at hbad
    exact hall d hd ⟨hbad.2, hbad.1⟩

/-! Claim theorems. -/

/-- C1: for every registry state, `getResponse` reports overall
`healthy = true` exactly when no record in the served snapshot is both a
hard dependency and unhealthy — any number of unhealthy soft records
leaves the verdict true — and the status code is 200 (success) exactly
when the overall boolean is true, 503 (service unavailable) otherwise. -/
theorem getResponse_verdict (h : HealthCheck) (now : Nat) :
    ((getResponse h now).2.1.healthy = true ↔
      ∀ d ∈ (getResponse h now).2.1.dependencies,
        ¬(d.hardDependency = true ∧ d.healthy = false)) ∧
    ((getResponse h now).1 = 200 ↔ (getResponse h now).2.1.healthy = true) ∧
    ((getResponse h now).1 = 503 ↔ (getResponse h now).2.1.healthy = false) := by
  simp only [getResponse]
  rw [aggregateStatus_eq]
  refine ⟨?_, ?_, ?_⟩
  · rw [Bool.not_eq_true']
    exact no_bad_hard_iff _
  · by_cases hany :
      ((if !h.bgCheckRunning then runChecks h now else h).dependencies.any
        fun d => !d.healthy && d.hardDependency) = true
    · simp [hany]
    · simp [hany]
  · by_cases hany :
      ((if !h.bgCheckRunning then runChecks h now else h).dependencies.any
        fun d => !d.healthy && d.hardDependency) = true
    · simp [hany]
    · simp [hany]

/-- C2: `UpdateHealth` on a name that is not registered returns the
not-found error and returns the handler state exactly unchanged: no new
record is created and every existing record is untouched. -/
theorem UpdateHealth_unknown_name (h : HealthCheck) (name : String)
    (isHealthy : Bool) (ce : Option CheckError) (now : Nat)
    (hnil : lookupDep h.dependencies name = none) :
    UpdateHealth h name isHealthy ce now =
      (some "dependency name does not exist", h) := by
  unfold UpdateHealth
  rw [hnil]

theorem UpdateHealth_unknown_name_witness :
    UpdateHealth
        (New { serviceName := "svc", basePath := "/b"
               backgroundCheckInterval := 1 }) "redis" true none 7 =
      (some "dependency name does not exist",
       New { serviceName := "svc", basePath := "/b"
             backgroundCheckInterval := 1 }) :=
  UpdateHealth_unknown_name _ "redis" true none 7 rfl

/-- C9: `New` substitutes the default background-check interval (60
seconds) whenever the configured interval is zero or negative, and keeps
every positive configured interval. -/
theorem New_background_interval (config : Config) :
    (config.backgroundCheckInterval ≤ 0 →
      (New config).bgCheckInterval = DefaultBackgroundCheckInterval) ∧
    (0 < config.backgroundCheckInterval →
      (New config).bgCheckInterval = config.backgroundCheckInterval) ∧
    DefaultBackgroundCheckInterval = 60 * 1000000000 := by
  refine ⟨fun hle => ?_, fun hpos => ?_, rfl⟩
  · unfold New
    rw [if_pos hle]
  · unfold New
    rw [if_neg (not_le.mpr hpos)]

theorem New_background_interval_witness :
    (New { serviceName := "svc", basePath := "/b"
           backgroundCheckInterval := 0 }).bgCheckInterval =
        DefaultBackgroundCheckInterval ∧
    (New { serviceName := "svc", basePath := "/b"
           backgroundCheckInterval := 5 }).bgCheckInterval = 5 :=
  ⟨(New_background_interval
      { serviceName := "svc", basePath := "/b"
        backgroundCheckInterval := 0 }).1 (by decide),
   (New_background_interval
      { serviceName := "svc", basePath := "/b"
        backgroundCheckInterval := 5 }).2.1 (by decide)⟩

/-- C5: `StartBackgroundCheck` invoked while the scheduler is already
running is a no-op, so two starts leave exactly what a single start
leaves; invoked while stopped, it marks the scheduler running and
performs one full check round synchronously before returning. -/
theorem StartBackgroundCheck_idempotent_and_immediate
    (h : HealthCheck) (now later : Nat) :
    (h.bgCheckRunning = true → StartBackgroundCheck h now = h) ∧
    (h.bgCheckRunning = false →
      (StartBackgroundCheck h now).bgCheckRunning = true ∧
      (StartBackgroundCheck h now).dependencies =
        h.dependencies.map (fun d => d.check now)) ∧
    StartBackgroundCheck (StartBackgroundCheck h now) later =
      StartBackgroundCheck h now := by
  unfold StartBackgroundCheck
  by_cases hb : h.bgCheckRunning = true
  · simp [hb]
  · simp only [Bool.not_eq_true] at hb
    simp [hb, runChecks]

theorem StartBackgroundCheck_witness :
    StartBackgroundCheck demoRunning 3 = demoRunning ∧
    (StartBackgroundCheck demoStopped 3).bgCheckRunning = true :=
  ⟨(StartBackgroundCheck_idempotent_and_immediate demoRunning 3 4).1 rfl,
   ((StartBackgroundCheck_idempotent_and_immediate demoStopped 3 4).2.1
      rfl).1⟩

/-- C6: if the background scheduler has never been started (not
running), `getResponse` first runs one full synchronous check round over
all registered dependencies and serves (and stores) the refreshed
records; if the scheduler is running, it serves the cached registry
unchanged and runs no checks inline. -/
theorem getResponse_inline_round_iff_not_running
    (h : HealthCheck) (now : Nat) :
    (h.bgCheckRunning = false →
      (getResponse h now).2.1.dependencies =
        h.dependencies.map (fun d => d.check now) ∧
      (getResponse h now).2.2 = runChecks h now) ∧
    (h.bgCheckRunning = true →
      (getResponse h now).2.1.dependencies = h.dependencies ∧
      (getResponse h now).2.2 = h) := by
  unfold getResponse
  by_cases hb : h.bgCheckRunning = true
  · simp [hb]
  · simp only [Bool.not_eq_true] at hb
    simp [hb, runChecks]

theorem getResponse_inline_round_witness :
    (getResponse demoStopped 3).2.2 = runChecks demoStopped 3 ∧
    (getResponse demoRunning 3).2.2 = demoRunning :=
  ⟨((getResponse_inline_round_iff_not_running demoStopped 3).1 rfl).2,
   ((getResponse_inline_round_iff_not_running demoRunning 3).2 rfl).2⟩

/-- C7: a record whose check callable is absent is skipped by the Check
Executor: its own `check` returns it unchanged (no error is raised), and
after a full round the identical record is still in the registry; only
`UpdateHealth` can change such a record. -/
theorem check_absent_callable_noop (d : HealthDependency) (h : HealthCheck)
    (now : Nat) (habs : d.checkFunc = none) :
    d.check now = d ∧
    (d ∈ h.dependencies → d ∈ (runChecks h now).dependencies) := by
  have hnoop : d.check now = d := by
    unfold HealthDependency.check
    rw [habs]
  refine ⟨hnoop, fun hmem => ?_⟩
  have hmap := List.mem_map_of_mem (fun x => x.check now) hmem
  simpa [runChecks, hnoop] using hmap

theorem check_absent_callable_noop_witness :
    demoDepExternal.check 9 = demoDepExternal ∧
    demoDepExternal ∈ (runChecks demoStopped 9).dependencies :=
  ⟨(check_absent_callable_noop demoDepExternal demoStopped 9 rfl).1,
   (check_absent_callable_noop demoDepExternal demoStopped 9 rfl).2
     (by simp [demoStopped])⟩

/-- C8: immediately after registration via `AddHealthCheck` or
`AddHardHealthCheck` — before any check or update for that name — the
stored record has `healthy = false` (Go zero value); consequently, while
the scheduler is running (the query serves the cached registry), a hard
dependency registered but never yet observed makes the overall verdict
false with status 503. -/
theorem register_starts_unhealthy (h : HealthCheck) (name url : String)
    (c : Option (Option String)) (now : Nat) :
    lookupDep (AddHealthCheck h name url c).dependencies name =
      some { name := name, url := url, healthy := false
             hardDependency := false, lastKnownGoodCall := none
             lastCall := none, lastError := none, checkFunc := c } ∧
    lookupDep (AddHardHealthCheck h name url c).dependencies name =
      some { name := name, url := url, healthy := false
             hardDependency := true, lastKnownGoodCall := none
             lastCall := none, lastError := none, checkFunc := c } ∧
    (h.bgCheckRunning = true →
      (getResponse (AddHardHealthCheck h name url c) now).2.1.healthy =
          false ∧
      (getResponse (AddHardHealthCheck h name url c) now).1 = 503) := by
  refine ⟨lookupDep_setDep _ _ _ (by simp),
          lookupDep_setDep _ _ _ (by simp), fun hrun => ?_⟩
  have hmem := mem_setDep h.dependencies name
    { name := name, url := url, healthy := false, hardDependency := true
      lastKnownGoodCall := none, lastCall := none, lastError := none
      checkFunc := c }
  have hany : ((AddHardHealthCheck h name url c).dependencies.any
      fun d => !d.healthy && d.hardDependency) = true := by
    rw [List.any_eq_true]
    exact ⟨_, hmem, by simp⟩
  have hb : (AddHardHealthCheck h name url c).bgCheckRunning = true := hrun
  simp only [getResponse, hb, Bool.not_true, Bool.false_eq_true, if_false,
    aggregateStatus_eq, hany, if_true]
  simp

theorem register_starts_unhealthy_witness :
    (getResponse (AddHardHealthCheck demoRunning "db" "db:5432" (some none))
        3).1 = 503 :=
  ((register_starts_unhealthy demoRunning "db" "db:5432" (some none) 3).2.2
    rfl).2

theorem UpdateHealth_found (h : HealthCheck) (name : String)
    (isHealthy : Bool) (ceo : Option CheckError) (now : Nat)
    (dep : HealthDependency)
    (hreg : lookupDep h.dependencies name = some dep) :
    UpdateHealth h name isHealthy ceo now =
      (none,
       { h with
          dependencies := setDep h.dependencies name
            { dep with
               healthy := isHealthy,
               lastCall := some now,
               lastKnownGoodCall :=
                 if isHealthy then some now else dep.lastKnownGoodCall,
               lastError := updErr dep.lastError ceo } }) := by
  unfold UpdateHealth
  rw [hreg]
  cases isHealthy <;> cases ceo <;> rfl

theorem lookupDep_after_update (h : HealthCheck) (name : String)
    (isHealthy : Bool) (ceo : Option CheckError) (now : Nat)
    (dep : HealthDependency)
    (hreg : lookupDep h.dependencies name = some dep) :
    lookupDep (UpdateHealth h name isHealthy ceo now).2.dependencies name =
      some
        { dep with
           healthy := isHealthy,
           lastCall := some now,
           lastKnownGoodCall :=
             if isHealthy then some now else dep.lastKnownGoodCall,
           lastError := updErr dep.lastError ceo } := by
  have hname := lookupDep_name _ _ _ hreg
  rw [UpdateHealth_found h name isHealthy ceo now dep hreg]
  exact lookupDep_setDep _ _ _ hname

/-- C3 counterexample: `staleDep` carries a previously recorded
lastError and its callable succeeds; the successful check reports
healthy yet the old lastError is still present, and a successful
`UpdateHealth("emailProvider", true, nil)` keeps it as well — nothing
clears lastError. -/
theorem success_keeps_stale_lastError_cex :
    (staleDep.check 2).healthy = true ∧
    (staleDep.check 2).lastError =
      some { timestamp := some 1, message := "smtp timeout" } ∧
    (UpdateHealth staleState "emailProvider" true none 2).1 = none ∧
    (lookupDep (UpdateHealth staleState "emailProvider" true none
        2).2.dependencies "emailProvider").map
        (fun r => (r.healthy, r.lastError)) =
      some (true, some { timestamp := some 1, message := "smtp timeout" }) :=
  ⟨rfl, rfl, rfl, rfl⟩

/-- C3 amended: a successful check (callable present, returning no
error) and a successful `UpdateHealth(name, true, nil)` set the record
healthy (and refresh the good-call timestamp) but leave any previously
recorded lastError in place unchanged; lastError is never cleared, only
overwritten by a later failure report that carries an error. -/
theorem success_leaves_lastError_unchanged (d : HealthDependency)
    (h : HealthCheck) (name : String) (dep : HealthDependency) (now : Nat)
    (hck : d.checkFunc = some none)
    (hreg : lookupDep h.dependencies name = some dep) :
    (d.check now).healthy = true ∧
    (d.check now).lastError = d.lastError ∧
    (UpdateHealth h name true none now).1 = none ∧
    lookupDep (UpdateHealth h name true none now).2.dependencies name =
      some
        { dep with
           healthy := true,
           lastCall := some now,
           lastKnownGoodCall := some now } := by
  have hchk : d.check now =
      { d with
         lastCall := some now,
         healthy := true,
         lastKnownGoodCall := some now } := by
    unfold HealthDependency.check
    rw [hck]
  have hfound := UpdateHealth_found h name true none now dep hreg
  refine ⟨by rw [hchk], by rw [hchk], by rw [hfound], ?_⟩
  exact lookupDep_after_update h name true none now dep hreg

theorem success_leaves_lastError_unchanged_witness :
    (staleDep.check 2).lastError = staleDep.lastError ∧
    lookupDep (UpdateHealth staleState "emailProvider" true none
        2).2.dependencies "emailProvider" =
      some
        { staleDep with
           healthy := true,
           lastCall := some 2,
           lastKnownGoodCall := some 2 } :=
  ⟨(success_leaves_lastError_unchanged staleDep staleState "emailProvider"
      staleDep 2 rfl rfl).2.1,
   (success_leaves_lastError_unchanged staleDep staleState "emailProvider"
      staleDep 2 rfl rfl).2.2.2⟩

/-- C4 counterexample: reporting a failure through
`UpdateHealth("queue", false, nil)` on a registered record with no prior
lastError succeeds, yet leaves lastError absent — a failing update does
not always populate lastError. -/
theorem failing_update_without_error_cex :
    (UpdateHealth noErrState "queue" false none 5).1 = none ∧
    (lookupDep (UpdateHealth noErrState "queue" false none
        5).2.dependencies "queue").map
        (fun r => (r.healthy, r.lastError, r.lastKnownGoodCall)) =
      some (false, none, some 1) :=
  ⟨rfl, rfl⟩

/-- C4 amended: after a successful check or a successful update the
record's `lastKnownGoodCall` is set to the call time and equals
`lastCall`; after a failing check `lastError` is populated (message and
call timestamp) and `lastKnownGoodCall` is unchanged; after an update
reporting `isHealthy = false`, `lastKnownGoodCall` is unchanged while
`lastError` is overwritten exactly when a non-nil checkError is
supplied, the prior value being kept when it is nil. -/
theorem timestamps_after_check_and_update (d : HealthDependency)
    (msg : String) (h : HealthCheck) (name : String)
    (dep : HealthDependency) (ceo : Option CheckError) (now : Nat)
    (hreg : lookupDep h.dependencies name = some dep) :
    (d.checkFunc = some none →
      (d.check now).lastKnownGoodCall = some now ∧
      (d.check now).lastCall = some now) ∧
    (d.checkFunc = some (some msg) →
      (d.check now).lastError =
        some { timestamp := some now, message := msg } ∧
      (d.check now).lastKnownGoodCall = d.lastKnownGoodCall) ∧
    lookupDep (UpdateHealth h name true ceo now).2.dependencies name =
      some
        { dep with
           healthy := true,
           lastCall := some now,
           lastKnownGoodCall := some now,
           lastError := updErr dep.lastError ceo } ∧
    lookupDep (UpdateHealth h name false ceo now).2.dependencies name =
      some
        { dep with
           healthy := false,
           lastCall := some now,
           lastError := updErr dep.lastError ceo } := by
  refine ⟨fun hok => ?_, fun hfail => ?_, ?_, ?_⟩
  · unfold HealthDependency.check
    rw [hok]
    exact ⟨rfl, rfl⟩
  · unfold HealthDependency.check
    rw [hfail]
    exact ⟨rfl, rfl⟩
  · exact lookupDep_after_update h name true ceo now dep hreg
  · exact lookupDep_after_update h name false ceo now dep hreg

theorem timestamps_after_check_and_update_witness :
    (demoDepOk.check 7).lastKnownGoodCall = some 7 ∧
    (demoDepFail.check 7).lastError =
      some { timestamp := some 7, message := "connection refused" } :=
  ⟨((timestamps_after_check_and_update demoDepOk "x" noErrState "queue"
      noErrDep none 7 rfl).1 rfl).1,
   ((timestamps_after_check_and_update demoDepFail "connection refused"
      noErrState "queue" noErrDep none 7 rfl).2.1 rfl).1⟩

/-- C10: on a registered name, `UpdateHealth` overwrites the record's
lastError exactly when the supplied checkError is non-nil, independently
of the isHealthy flag: with a checkError the error is recorded even when
isHealthy is true, and with a nil checkError the prior lastError is kept
even when isHealthy is false. -/
theorem UpdateHealth_lastError_iff_checkError (h : HealthCheck)
    (name : String) (isHealthy : Bool) (ce : CheckError) (now : Nat)
    (dep : HealthDependency)
    (hreg : lookupDep h.dependencies name = some dep) :
    (∀ r, lookupDep (UpdateHealth h name isHealthy (some ce)
        now).2.dependencies name = some r →
      r.lastError =
        some { message := ce.message,
               timestamp := if ce.timestamp ≠ 0 then some ce.timestamp
                            else none }) ∧
    (∀ r, lookupDep (UpdateHealth h name isHealthy none
        now).2.dependencies name = some r →
      r.lastError = dep.lastError) := by
  constructor
  · intro r hr
    rw [lookupDep_after_update h name isHealthy (some ce) now dep hreg]
      at hr
    cases hr
    rfl
  · intro r hr
    rw [lookupDep_after_update h name isHealthy none now dep hreg] at hr
    cases hr
    rfl

theorem UpdateHealth_lastError_iff_checkError_witness :
    (lookupDep (UpdateHealth noErrState "queue" true
        (some { timestamp := 4, message := "smtp timeout" })
        5).2.dependencies "queue").map (fun r => r.lastError) =
      some (some { message := "smtp timeout", timestamp := some 4 }) := by
  have hlook : lookupDep (UpdateHealth noErrState "queue" true
      (some { timestamp := 4, message := "smtp timeout" })
      5).2.dependencies "queue" = some
        { noErrDep with
           healthy := true,
           lastCall := some 5,
           lastKnownGoodCall := some 5,
           lastError := some { message := "smtp timeout"
                               timestamp := some 4 } } := rfl
  have hx := (UpdateHealth_lastError_iff_checkError noErrState "queue"
    true { timestamp := 4, message := "smtp timeout" } 5 noErrDep rfl).1
    _ hlook
  rw [hlook]
  exact congrArg some hx

end Healthcheck
